import Mathlib

/-!
Verification of the audio-capture and transcript-merge core of the
Meeting-Notes backend, shallowly embedded from
`backend/app/services/audio_capture.py`,
`backend/app/services/transcription_service.py` and
`backend/app/api/devices.py`.
-/

namespace MeetingNotes

/-! ## Transcript segments and the merge pass
(`transcription_service._merge_and_filter`) -/

/-- A transcript segment as produced per track and consumed by the merger:
start/end in milliseconds, text, speaker label, optional confidence. -/
structure Seg where
  t_start_ms : Int
  t_end_ms : Int
  text : String
  speaker : String
  confidence : Option Rat
  deriving Repr, DecidableEq

/-- The Python sort key `(int(s["t_start_ms"]), int(s["t_end_ms"]))` compared
lexicographically: the boolean order used by the stable sort. -/
def segLE (a b : Seg) : Bool :=
  decide (a.t_start_ms < b.t_start_ms ∨
    (a.t_start_ms = b.t_start_ms ∧ a.t_end_ms ≤ b.t_end_ms))

/-- The duplicate test of `_merge_and_filter`:
`s["text"].strip() == dedup[-1]["text"].strip() and
 s["t_start_ms"] - dedup[-1]["t_start_ms"] < 500`. -/
def isDup (prev s : Seg) : Bool :=
  decide (s.text.trim = prev.text.trim ∧ s.t_start_ms - prev.t_start_ms < 500)

/-- Python `dedup[-1]["t_end_ms"] = max(dedup[-1]["t_end_ms"], s["t_end_ms"])`. -/
def extendSeg (prev s : Seg) : Seg :=
  { prev with t_end_ms := max prev.t_end_ms s.t_end_ms }

/-- The dedup loop of `_merge_and_filter`, with the growing `dedup` list kept
reversed in the accumulator (its head is `dedup[-1]`). -/
def dedupLoop : List Seg → List Seg → List Seg
  | acc, [] => acc.reverse
  | [], s :: rest => dedupLoop [s] rest
  | p :: accT, s :: rest =>
    if isDup p s then dedupLoop (extendSeg p s :: accT) rest
    else dedupLoop (s :: p :: accT) rest

/-- Function `_filter_and_merge_adjacent`: a documented no-op in the source. -/
def filterAndMergeAdjacent (segs : List Seg) : List Seg := segs

/-- Function `_merge_and_filter(mic, sys)`: concatenate, stable-sort by
`(t_start_ms, t_end_ms)`, then run the 500 ms dedup pass. -/
def mergeAndFilter (mic sys : List Seg) : List Seg :=
  dedupLoop [] ((filterAndMergeAdjacent (mic ++ sys)).mergeSort segLE)

/-- Modelled from the spec: walk the sorted sequence keeping the previous
emitted segment; on a duplicate extend it, otherwise emit the current one. -/
def mergeWalkGo (prev : Seg) : List Seg → List Seg
  | [] => [prev]
  | s :: rest =>
    if isDup prev s then mergeWalkGo (extendSeg prev s) rest
    else prev :: mergeWalkGo s rest

/-- Modelled from the spec: the whole walk over an already-sorted sequence. -/
def mergeWalk : List Seg → List Seg
  | [] => []
  | s :: rest => mergeWalkGo s rest

/-! ## Recording sessions (`audio_capture.py`) -/

/-- Result of `sd.query_devices(mic_dev)` for the microphone device. -/
structure MicInfo where
  name : String
  default_samplerate : Int
  max_input_channels : Int
  deriving Repr, DecidableEq

/-- Result of `sd.query_devices(out_dev, "output")` (or the bare retry) for
the output device. -/
structure OutInfo where
  name : String
  default_samplerate : Int
  max_output_channels : Int
  deriving Repr, DecidableEq

/-- One call's view of the audio environment: module availability, default
devices, device queries (`none` = the query raises), and whether opening and
starting an `sd.InputStream` succeeds for each track (`false` = it raises). -/
structure CaptureEnv where
  sdPresent : Bool
  scPresent : Bool
  defaultDevice : Option (Int × Int)
  queryMic : Int → Option MicInfo
  queryOut : Int → Option OutInfo
  micStreamOk : Bool
  sysStreamOk : Bool

/-- The `_StreamBundle` dataclass: stream/writer handles are abstracted to
open/closed booleans, everything else kept field-for-field. -/
structure StreamBundle where
  micStream : Bool
  sysStream : Bool
  micWav : Bool
  sysWav : Bool
  micFrames : Nat
  sysFrames : Nat
  sysThread : Bool
  sysStopEvent : Bool
  micRate : Option Int
  micChannels : Option Int
  sysRate : Option Int
  sysChannels : Option Int
  sysBackend : Option String
  targetRate : Int
  deriving Repr, DecidableEq

/-- The freshly constructed `_StreamBundle(mic_stream=None, ...)`. -/
def emptyBundle : StreamBundle :=
  ⟨false, false, false, false, 0, 0, false, false, none, none, none, none, none, 48000⟩

/-- The process-wide `_recordings` dict, as an association list. -/
abbrev RecState := List (String × StreamBundle)

def lookupRec : RecState → String → Option StreamBundle
  | [], _ => none
  | (k2, b) :: rest, k => if k2 = k then some b else lookupRec rest k

def eraseRec : RecState → String → RecState
  | [], _ => []
  | (k2, b) :: rest, k =>
    if k2 = k then eraseRec rest k else (k2, b) :: eraseRec rest k

def insertRec (st : RecState) (k : String) (b : StreamBundle) : RecState :=
  (k, b) :: eraseRec st k

/-- Path `settings.audio_dir / meeting_id / "mic.wav"`. -/
def micPathStr (audioDir meetingId : String) : String :=
  audioDir ++ "/" ++ meetingId ++ "/mic.wav"

/-- Path `settings.audio_dir / meeting_id / "system.wav"`. -/
def sysPathStr (audioDir meetingId : String) : String :=
  audioDir ++ "/" ++ meetingId ++ "/system.wav"

/-- The dict returned by `start_recording`: `{}` or the two optional paths. -/
inductive StartResult
  | empty
  | paths (micPath sysPath : Option String)
  deriving Repr, DecidableEq

/-- The non-empty dict returned by `stop_recording`. -/
structure StopInfo where
  micPath : Option String
  sysPath : Option String
  micFrames : Nat
  sysFrames : Nat
  rate : Int
  channels : Int
  sysBackend : Option String
  deriving Repr, DecidableEq

/-- The dict returned by `stop_recording`: `{}` or the metadata dict. -/
inductive StopResult
  | empty
  | info (i : StopInfo)
  deriving Repr, DecidableEq

/-- Python `mic_dev = int(mic_device_id)` if supplied, else
`sd.default.device[0] if sd.default.device is not None else None`. -/
def resolveMicDev (env : CaptureEnv) (micDeviceId : Option Int) : Option Int :=
  match micDeviceId with
  | some d => some d
  | none => env.defaultDevice.map Prod.fst

/-- Python `out_dev = int(output_device_id)` if supplied, else
`sd.default.device[1] if sd.default.device is not None else None`. -/
def resolveOutDev (env : CaptureEnv) (outputDeviceId : Option Int) : Option Int :=
  match outputDeviceId with
  | some d => some d
  | none => env.defaultDevice.map Prod.snd

/-- The bundle after the MIC block succeeds: stream started, observed rate
`int(mic_info.get("default_samplerate", 48000))` and channel count
`max(1, min(2, int(mic_info.get("max_input_channels", 1)) or 1))` recorded,
mic WAV writer opened. -/
def micOpenedBundle (b : StreamBundle) (info : MicInfo) : StreamBundle :=
  { b with micStream := true,
           micRate := some info.default_samplerate,
           micChannels := some (max 1 (min 2
             (if info.max_input_channels = 0 then 1 else info.max_input_channels))),
           micWav := true }

/-- The observed system rate
`int(out_info.get("default_samplerate", 48000)) or 48000`. -/
def sysObservedRate (info : OutInfo) : Int :=
  if info.default_samplerate = 0 then 48000 else info.default_samplerate

/-- The observed system channel count
`max(1, int(out_info.get("max_output_channels", 2) or 2))`. -/
def sysObservedChannels (info : OutInfo) : Int :=
  max 1 (if info.max_output_channels = 0 then 2 else info.max_output_channels)

/-- The bundle after the primary (`sounddevice` WASAPI loopback) system open
succeeds. -/
def sysPrimaryBundle (b : StreamBundle) (info : OutInfo) : StreamBundle :=
  { b with sysStream := true, sysBackend := some "sounddevice",
           sysRate := some (sysObservedRate info),
           sysChannels := some (sysObservedChannels info),
           sysWav := true }

/-- The bundle after the `soundcard` fallback thread is started. -/
def sysFallbackBundle (b : StreamBundle) (info : OutInfo) : StreamBundle :=
  { b with sysThread := true, sysStopEvent := true,
           sysBackend := some "soundcard",
           sysRate := some (sysObservedRate info),
           sysChannels := some (sysObservedChannels info),
           sysWav := true }

/-- The MIC block of `start_recording`: skipped when the device does not
resolve or is `-1`; `sd.query_devices` and the stream open are unguarded, so
their failures propagate (`Except.error`). On success the bundle gains the
started stream, rate/channel metadata and an open mic WAV writer. -/
def micPhase (env : CaptureEnv) (b : StreamBundle) (micDeviceId : Option Int) :
    Except String StreamBundle :=
  match resolveMicDev env micDeviceId with
  | none => .ok b
  | some d =>
    if d = -1 then .ok b
    else
      match env.queryMic d with
      | none => .error "query_devices raised"
      | some info =>
        if env.micStreamOk then .ok (micOpenedBundle b info)
        else .error "mic InputStream open raised"

/-- The SYSTEM LOOPBACK block of `start_recording`: skipped when the device
does not resolve or is `-1`; the query failure propagates; a primary
(`sounddevice` WASAPI loopback) open failure falls back to the `soundcard`
thread when that module is present and re-raises otherwise. -/
def sysPhase (env : CaptureEnv) (b : StreamBundle) (outputDeviceId : Option Int) :
    Except String StreamBundle :=
  match resolveOutDev env outputDeviceId with
  | none => .ok b
  | some d =>
    if d = -1 then .ok b
    else
      match env.queryOut d with
      | none => .error "query_devices raised"
      | some info =>
        if env.sysStreamOk then .ok (sysPrimaryBundle b info)
        else if env.scPresent then .ok (sysFallbackBundle b info)
        else .error "loopback open raised and soundcard missing"

/-- Function `start_recording(meeting_id, mic_device_id, output_device_id)`. Returns
the final `_recordings` table (the dict survives an uncaught exception, still
holding the pre-registered, partially initialized bundle) and either the
result dict or the propagated error. -/
def start_recording (env : CaptureEnv) (audioDir : String) (st : RecState)
    (meetingId : String) (micDeviceId outputDeviceId : Option Int) :
    RecState × Except String StartResult :=
  if env.sdPresent = false then (st, .error "sounddevice not available")
  else if (lookupRec st meetingId).isSome then (st, .ok .empty)
  else
    match micPhase env emptyBundle micDeviceId with
    | .error e => (insertRec st meetingId emptyBundle, .error e)
    | .ok b1 =>
      match sysPhase env b1 outputDeviceId with
      | .error e => (insertRec st meetingId b1, .error e)
      | .ok b2 =>
        (insertRec st meetingId b2,
         .ok (.paths
           (if b2.micWav then some (micPathStr audioDir meetingId) else none)
           (if b2.sysWav then some (sysPathStr audioDir meetingId) else none)))

/-- Function `stop_recording(meeting_id)`: pops the bundle (returning `{}` when the
key has no active session), stops streams, closes writers and returns the
per-track metadata. -/
def stop_recording (audioDir : String) (st : RecState) (meetingId : String) :
    RecState × StopResult :=
  match lookupRec st meetingId with
  | none => (st, .empty)
  | some b =>
    (eraseRec st meetingId,
     .info
       { micPath := if b.micWav then some (micPathStr audioDir meetingId) else none
         sysPath := if b.sysWav then some (sysPathStr audioDir meetingId) else none
         micFrames := b.micFrames
         sysFrames := b.sysFrames
         rate := b.targetRate
         channels := 1
         sysBackend := b.sysBackend })

/-! ## Device enumeration (`api/devices.py`) -/

/-- One entry of `sd.query_devices()`. -/
structure SdDevice where
  name : String
  max_input_channels : Int
  max_output_channels : Int
  deriving Repr, DecidableEq

/-- The `Device` response model. -/
structure Device where
  id : String
  name : String
  kind : String
  is_default : Bool
  deriving Repr, DecidableEq

/-- The audio subsystem as `list_devices` sees it: module presence, the
enumeration (`none` = `sd.query_devices()` raises) and `sd.default.device`. -/
structure DevicesEnv where
  sdPresent : Bool
  query : Option (List SdDevice)
  defaultDevice : Option (Int × Int)

/-- Function `list_devices()`: empty lists when the module is absent or enumeration
raises; otherwise one pass over the enumerated devices, appending an input
descriptor when `max_input_channels > 0` and an output descriptor when
`max_output_channels > 0`, with the default flag computed by comparing the
index against the backend's default input/output index. -/
def list_devices (env : DevicesEnv) : List Device × List Device :=
  if env.sdPresent = false then ([], [])
  else
    match env.query with
    | none => ([], [])
    | some devs =>
      let defIn : Option Int := env.defaultDevice.map Prod.fst
      let defOut : Option Int := env.defaultDevice.map Prod.snd
      ((devs.enum.filter fun p => 0 < p.2.max_input_channels).map
          fun p => ⟨toString p.1, p.2.name, "input", decide (some (p.1 : Int) = defIn)⟩,
       (devs.enum.filter fun p => 0 < p.2.max_output_channels).map
          fun p => ⟨toString p.1, p.2.name, "output", decide (some (p.1 : Int) = defOut)⟩)

/-! ## Per-block capture pipeline (`_mic_cb`, `_sys_cb`)
Float32 samples are embedded as exact rationals. -/

/-- Cast `astype(np.int16)` on a clipped value: truncation toward zero. -/
def ratTrunc (x : Rat) : Int := if 0 ≤ x then x.floor else x.ceil

/-- Python `np.clip(x, lo, hi)`. -/
def npClip (x lo hi : Rat) : Rat := min (max x lo) hi

/-- One frame of `_to_mono_int16`'s mean-downmix: `data_f32.mean(axis=1)`
when the block has more than one channel, else the frame's single sample. -/
def monoRow (r : List Rat) : Rat :=
  if 1 < r.length then r.sum / (r.length : Rat) else r.headD 0

/-- Function `_to_mono_int16`: downmix to mono, scale by 32767, clip, cast to int16. -/
def toMonoInt16 (rows : List (List Rat)) : List Int :=
  rows.map fun r => ratTrunc (npClip (monoRow r * 32767) (-32768) 32767)

/-- Conversion `.astype(np.float32) / 32768.0` applied to the int16 mono block. -/
def int16ToF32 (xs : List Int) : List Rat := xs.map fun i => (i : Rat) / 32768

/-- Python `np.clip(f32 * 32767.0, -32768, 32767).astype(np.int16)` before
`writeframes`. -/
def encodeInt16 (xs : List Rat) : List Int :=
  xs.map fun x => ratTrunc (npClip (x * 32767) (-32768) 32767)

/-- Callback `_mic_cb`: convert the delivered block to float mono, resample when the
device rate is set, nonzero and differs from the target (falling back to the
unresampled block when `soxr.resample` raises), then append to the mic WAV
and bump the frame counter. Returns the updated bundle and the written
samples. -/
def micCb (resample : List Rat → Int → Int → Option (List Rat))
    (b : StreamBundle) (indata : List (List Rat)) : StreamBundle × List Int :=
  let f32 := int16ToF32 (toMonoInt16 indata)
  let f32a :=
    match b.micRate with
    | none => f32
    | some r =>
      if r ≠ 0 ∧ r ≠ b.targetRate then
        match resample f32 r b.targetRate with
        | some y => y
        | none => f32
      else f32
  if b.micWav then
    ({ b with micFrames := b.micFrames + f32a.length }, encodeInt16 f32a)
  else (b, [])

/-- Callback `_sys_cb`: identical pipeline on the system track's fields. -/
def sysCb (resample : List Rat → Int → Int → Option (List Rat))
    (b : StreamBundle) (indata : List (List Rat)) : StreamBundle × List Int :=
  let f32 := int16ToF32 (toMonoInt16 indata)
  let f32a :=
    match b.sysRate with
    | none => f32
    | some r =>
      if r ≠ 0 ∧ r ≠ b.targetRate then
        match resample f32 r b.targetRate with
        | some y => y
        | none => f32
      else f32
  if b.sysWav then
    ({ b with sysFrames := b.sysFrames + f32a.length }, encodeInt16 f32a)
  else (b, [])

/-! ## Concrete environments used by witnesses and counterexamples -/

/-- Both devices resolve and both stream opens succeed. -/
def okEnv : CaptureEnv :=
  ⟨true, false, some (1, 3), (fun _ => some ⟨"Mic", 44100, 1⟩),
   (fun _ => some ⟨"Spk", 44100, 2⟩), true, true⟩

/-- The mic device resolves but its `sd.InputStream` open raises. -/
def micFailEnv : CaptureEnv :=
  ⟨true, false, none, (fun _ => some ⟨"Mic", 48000, 1⟩), (fun _ => none),
   false, false⟩

/-- The primary loopback open raises and the `soundcard` fallback is
available. -/
def fallbackEnv : CaptureEnv :=
  ⟨true, true, none, (fun _ => none), (fun _ => some ⟨"Spk", 48000, 2⟩),
   true, false⟩

/-- The mic opens fine; the primary loopback open raises and no fallback
module is available. -/
def sysFailEnv : CaptureEnv :=
  ⟨true, false, some (1, 3), (fun _ => some ⟨"Mic", 48000, 1⟩),
   (fun _ => some ⟨"Spk", 48000, 2⟩), true, false⟩

/-- A bundle as the callbacks see it mid-session: rates set, writers open. -/
def cbBundle : StreamBundle :=
  { emptyBundle with micRate := some 44100, sysRate := some 44100,
                     micWav := true, sysWav := true }

/-- A `soxr.resample` stand-in that always raises. -/
def cbFailResample : List Rat → Int → Int → Option (List Rat) :=
  fun _ _ _ => none

/-! ### Helper lemmas about the merge pass -/

theorem segLE_refl (a : Seg) : segLE a a = true := by
  simp [segLE]

theorem segLE_trans {a b c : Seg} (h1 : segLE a b = true) (h2 : segLE b c = true) :
    segLE a c = true := by
  simp only [segLE, decide_eq_true_eq] at *
  omega

theorem segLE_total (a b : Seg) : (segLE a b || segLE b a) = true := by
  simp only [segLE, Bool.or_eq_true, decide_eq_true_eq]
  omega

/-- The accumulator form of the dedup loop agrees with the spec walk. -/
theorem dedupLoop_eq_walkGo (accT : List Seg) (p : Seg) (xs : List Seg) :
    dedupLoop (p :: accT) xs = accT.reverse ++ mergeWalkGo p xs := by
  induction xs generalizing accT p with
  | nil => simp [dedupLoop, mergeWalkGo]
  | cons s rest ih =>
    by_cases h : isDup p s = true
    · simp [dedupLoop, mergeWalkGo, h, ih]
    · simp only [dedupLoop, mergeWalkGo, h, Bool.false_eq_true, if_false,
        if_neg]
      rw [ih]
      simp

theorem dedupLoop_nil_eq_walk (xs : List Seg) :
    dedupLoop [] xs = mergeWalk xs := by
  cases xs with
  | nil => rfl
  | cons s rest =>
    show dedupLoop [s] rest = mergeWalkGo s rest
    have := dedupLoop_eq_walkGo [] s rest
    simpa using this

theorem extendSeg_start (p s : Seg) : (extendSeg p s).t_start_ms = p.t_start_ms := rfl

theorem extendSeg_end (p s : Seg) : (extendSeg p s).t_end_ms = max p.t_end_ms s.t_end_ms := rfl

theorem extendSeg_text (p s : Seg) : (extendSeg p s).text = p.text := rfl

theorem segLE_self_extend (p s : Seg) : segLE p (extendSeg p s) = true := by
  simp [segLE, extendSeg_start, extendSeg_end, le_max_iff]

theorem segLE_extend_of {p s y : Seg} (hps : segLE p s = true)
    (hpy : segLE p y = true) (hsy : segLE s y = true) :
    segLE (extendSeg p s) y = true := by
  simp only [segLE, extendSeg_start, extendSeg_end, decide_eq_true_eq, max_le_iff] at *
  omega

theorem pairwise_extend {p s : Seg} {rest : List Seg}
    (h : (p :: s :: rest).Pairwise fun a b => segLE a b = true) :
    (extendSeg p s :: rest).Pairwise fun a b => segLE a b = true := by
  rcases List.pairwise_cons.mp h with ⟨hp, h2⟩
  rcases List.pairwise_cons.mp h2 with ⟨hs, h3⟩
  refine List.pairwise_cons.mpr ⟨?_, h3⟩
  intro y hy
  exact segLE_extend_of (hp s (List.mem_cons_self s rest))
    (hp y (List.mem_cons_of_mem s hy)) (hs y hy)

theorem walkGo_mem {p : Seg} {xs : List Seg} {x : Seg}
    (h : (p :: xs).Pairwise fun a b => segLE a b = true)
    (hx : x ∈ mergeWalkGo p xs) : segLE p x = true := by
  induction xs generalizing p with
  | nil =>
    simp only [mergeWalkGo, List.mem_singleton] at hx
    subst hx; exact segLE_refl _
  | cons s rest ih =>
    rcases List.pairwise_cons.mp h with ⟨hp, h2⟩
    by_cases hd : isDup p s = true
    · rw [mergeWalkGo, if_pos hd] at hx
      exact segLE_trans (segLE_self_extend p s) (ih (pairwise_extend h) hx)
    · rw [mergeWalkGo, if_neg hd] at hx
      rcases List.mem_cons.mp hx with h1 | h1
      · subst h1; exact segLE_refl _
      · exact segLE_trans (hp s (List.mem_cons_self s rest)) (ih h2 h1)

theorem walkGo_pairwise {p : Seg} {xs : List Seg}
    (h : (p :: xs).Pairwise fun a b => segLE a b = true) :
    (mergeWalkGo p xs).Pairwise fun a b => segLE a b = true := by
  induction xs generalizing p with
  | nil => simp [mergeWalkGo]
  | cons s rest ih =>
    rcases List.pairwise_cons.mp h with ⟨hp, h2⟩
    by_cases hd : isDup p s = true
    · rw [mergeWalkGo, if_pos hd]
      exact ih (pairwise_extend h)
    · rw [mergeWalkGo, if_neg hd]
      refine List.pairwise_cons.mpr ⟨?_, ih h2⟩
      intro y hy
      exact segLE_trans (hp s (List.mem_cons_self s rest)) (walkGo_mem h2 hy)

/-- Sortedness by the Python sort key `(t_start_ms, t_end_ms)`. -/
def SegSorted (l : List Seg) : Prop := l.Pairwise fun a b => segLE a b = true

theorem sorted_concat_mergeSort (mic sys : List Seg) :
    SegSorted ((filterAndMergeAdjacent (mic ++ sys)).mergeSort segLE) := by
  have h := @List.sorted_mergeSort Seg segLE
    (fun a b c h1 h2 => segLE_trans h1 h2) segLE_total
    (filterAndMergeAdjacent (mic ++ sys))
  simpa [SegSorted] using h

theorem walk_pairwise {xs : List Seg} (h : SegSorted xs) :
    SegSorted (mergeWalk xs) := by
  cases xs with
  | nil => exact List.Pairwise.nil
  | cons s rest => exact walkGo_pairwise h

theorem mergeAndFilter_sorted (mic sys : List Seg) :
    SegSorted (mergeAndFilter mic sys) := by
  rw [mergeAndFilter, dedupLoop_nil_eq_walk]
  exact walk_pairwise (sorted_concat_mergeSort mic sys)

theorem isDup_eq_of_fields {p a b : Seg} (h1 : a.text = b.text)
    (h2 : a.t_start_ms = b.t_start_ms) : isDup p a = isDup p b := by
  simp only [isDup, h1, h2]

theorem walkGo_head (s : Seg) (rest : List Seg) :
    ∃ e tl, mergeWalkGo s rest =
      Seg.mk s.t_start_ms e s.text s.speaker s.confidence :: tl := by
  induction rest generalizing s with
  | nil =>
    refine ⟨s.t_end_ms, [], ?_⟩
    cases s
    rfl
  | cons t rest ih =>
    by_cases hd : isDup s t = true
    · rw [mergeWalkGo, if_pos hd]
      rcases ih (extendSeg s t) with ⟨e, tl, heq⟩
      exact ⟨e, tl, heq⟩
    · rw [mergeWalkGo, if_neg hd]
      refine ⟨s.t_end_ms, mergeWalkGo t rest, ?_⟩
      cases s
      rfl

theorem walkGo_chain (p : Seg) (xs : List Seg) :
    List.Chain' (fun a b => isDup a b = false) (mergeWalkGo p xs) := by
  induction xs generalizing p with
  | nil => simp [mergeWalkGo]
  | cons s rest ih =>
    by_cases hd : isDup p s = true
    · rw [mergeWalkGo, if_pos hd]
      exact ih _
    · rw [mergeWalkGo, if_neg hd]
      have hd' : isDup p s = false := by simpa using hd
      rcases walkGo_head s rest with ⟨e, tl, heq⟩
      rw [heq]
      refine List.chain'_cons.mpr ⟨?_, ?_⟩
      · rw [isDup_eq_of_fields rfl rfl]
        exact hd'
      · rw [← heq]
        exact ih s

theorem walkGo_of_chain {p : Seg} {xs : List Seg}
    (h : List.Chain' (fun a b => isDup a b = false) (p :: xs)) :
    mergeWalkGo p xs = p :: xs := by
  induction xs generalizing p with
  | nil => rfl
  | cons s rest ih =>
    rcases List.chain'_cons.mp h with ⟨h1, h2⟩
    rw [mergeWalkGo, if_neg (by simp [h1]), ih h2]

theorem walk_of_chain {xs : List Seg}
    (h : List.Chain' (fun a b => isDup a b = false) xs) :
    mergeWalk xs = xs := by
  cases xs with
  | nil => rfl
  | cons s rest => exact walkGo_of_chain h

theorem mergeAndFilter_chain (a b : List Seg) :
    List.Chain' (fun x y => isDup x y = false) (mergeAndFilter a b) := by
  rw [mergeAndFilter, dedupLoop_nil_eq_walk]
  cases hL : (filterAndMergeAdjacent (a ++ b)).mergeSort segLE with
  | nil => simp [mergeWalk]
  | cons s rest => exact walkGo_chain s rest

/-! ### Claim theorems for the merge pass -/

/-- C2: `_merge_and_filter` walks the stable-sorted concatenation of its two
input segment lists and, for each segment whose trimmed text equals the
previous emitted segment's trimmed text and whose start-ms minus the previous
emitted segment's start-ms is strictly under the 500 ms dedup window, extends
the previous emitted segment's end-ms to the max of both end-ms and discards
the current segment; otherwise it emits the current segment unchanged. This is
stated as equality with `mergeWalk`, the direct transcription of that
description. -/
theorem merge_and_filter_follows_spec_walk (mic sys : List Seg) :
    mergeAndFilter mic sys = mergeWalk ((mic ++ sys).mergeSort segLE) := by
  rw [mergeAndFilter, dedupLoop_nil_eq_walk]
  rfl

/-- C3: for every pair of input segment lists in any ordering, the output of
`_merge_and_filter` is sorted by `(t_start_ms, t_end_ms)` lexicographically
ascending, including after dedup extends an emitted segment's end-ms. -/
theorem merge_output_sorted (a b : List Seg) :
    (mergeAndFilter a b).Pairwise fun s t => segLE s t = true :=
  mergeAndFilter_sorted a b

/-- C4: `_merge_and_filter` is idempotent — merging an already merged list
with the empty list returns it unchanged. -/
theorem merge_idempotent_on_empty (a b : List Seg) :
    mergeAndFilter (mergeAndFilter a b) [] = mergeAndFilter a b := by
  have hsort : SegSorted (mergeAndFilter a b) := mergeAndFilter_sorted a b
  have hchain := mergeAndFilter_chain a b
  conv_lhs => rw [mergeAndFilter]
  rw [show filterAndMergeAdjacent (mergeAndFilter a b ++ []) = mergeAndFilter a b from
    by simp [filterAndMergeAdjacent]]
  rw [List.mergeSort_of_sorted hsort, dedupLoop_nil_eq_walk]
  exact walk_of_chain hchain

/-! ### Helper lemmas about the session table and the two open phases -/

theorem lookupRec_insert (st : RecState) (k : String) (b : StreamBundle) :
    lookupRec (insertRec st k b) k = some b := by
  simp [insertRec, lookupRec]

theorem lookupRec_erase (st : RecState) (k : String) :
    lookupRec (eraseRec st k) k = none := by
  induction st with
  | nil => rfl
  | cons p rest ih =>
    rcases p with ⟨k2, b⟩
    by_cases h : k2 = k
    · simp [eraseRec, h, ih]
    · simp [eraseRec, lookupRec, h, ih]

theorem start_on_active (env : CaptureEnv) (audioDir : String) (st : RecState)
    (k : String) (micId outId : Option Int) (hsd : env.sdPresent = true)
    (hactive : (lookupRec st k).isSome = true) :
    start_recording env audioDir st k micId outId = (st, .ok .empty) := by
  simp [start_recording, hsd, hactive]

theorem micPhase_ok_fields {env : CaptureEnv} {b b1 : StreamBundle}
    {micId : Option Int} (h : micPhase env b micId = .ok b1) :
    b1.sysBackend = b.sysBackend ∧ b1.sysWav = b.sysWav := by
  unfold micPhase at h
  repeat' split at h
  all_goals
    first
      | (simp only [Except.ok.injEq] at h; subst h; exact ⟨rfl, rfl⟩)
      | simp at h

theorem micPhase_micStream {env : CaptureEnv} {b b1 : StreamBundle}
    {micId : Option Int} {d : Int} (h : micPhase env b micId = .ok b1)
    (hr : resolveMicDev env micId = some d) (hd : d ≠ -1) :
    b1.micStream = true := by
  simp only [micPhase, hr, hd, if_false] at h
  repeat' split at h
  all_goals
    first
      | (simp only [Except.ok.injEq] at h; subst h; rfl)
      | simp at h

theorem micPhase_isOk (b : StreamBundle) {env : CaptureEnv} {micId : Option Int}
    (hmic : ∀ d, resolveMicDev env micId = some d → d ≠ -1 →
      (env.queryMic d).isSome = true ∧ env.micStreamOk = true) :
    ∃ b1, micPhase env b micId = .ok b1 := by
  cases hr : resolveMicDev env micId with
  | none => exact ⟨b, by simp [micPhase, hr]⟩
  | some d =>
    by_cases hd : d = -1
    · exact ⟨b, by simp [micPhase, hr, hd]⟩
    · obtain ⟨hq, hok⟩ := hmic d hr hd
      cases hqm : env.queryMic d with
      | none => rw [hqm] at hq; simp at hq
      | some info =>
        exact ⟨micOpenedBundle b info, by simp [micPhase, hr, hd, hqm, hok]⟩

theorem sysPhase_ok_cases {env : CaptureEnv} {b b2 : StreamBundle}
    {outId : Option Int} (h : sysPhase env b outId = .ok b2) :
    b2 = b ∨ (b2.sysBackend = some "sounddevice" ∧ b2.sysWav = true)
      ∨ (b2.sysBackend = some "soundcard" ∧ b2.sysWav = true) := by
  unfold sysPhase at h
  repeat' split at h
  all_goals
    first
      | (simp only [Except.ok.injEq] at h; subst h; exact Or.inl rfl)
      | (simp only [Except.ok.injEq] at h; subst h;
         exact Or.inr (Or.inl ⟨rfl, rfl⟩))
      | (simp only [Except.ok.injEq] at h; subst h;
         exact Or.inr (Or.inr ⟨rfl, rfl⟩))
      | simp at h

theorem sysPhase_isOk (b : StreamBundle) {env : CaptureEnv} {outId : Option Int}
    (hsys : ∀ d, resolveOutDev env outId = some d → d ≠ -1 →
      (env.queryOut d).isSome = true ∧
        (env.sysStreamOk = true ∨ env.scPresent = true)) :
    ∃ b2, sysPhase env b outId = .ok b2 := by
  cases hr : resolveOutDev env outId with
  | none => exact ⟨b, by simp [sysPhase, hr]⟩
  | some d =>
    by_cases hd : d = -1
    · exact ⟨b, by simp [sysPhase, hr, hd]⟩
    · obtain ⟨hq, hok⟩ := hsys d hr hd
      cases hqm : env.queryOut d with
      | none => rw [hqm] at hq; simp at hq
      | some info =>
        cases hps : env.sysStreamOk with
        | true =>
          exact ⟨sysPrimaryBundle b info, by simp [sysPhase, hr, hd, hqm, hps]⟩
        | false =>
          have hsc : env.scPresent = true := by
            rcases hok with hok | hok
            · rw [hok] at hps; cases hps
            · exact hok
          exact ⟨sysFallbackBundle b info,
            by simp [sysPhase, hr, hd, hqm, hps, hsc]⟩

theorem sysPhase_fallback (b : StreamBundle) {env : CaptureEnv}
    {outId : Option Int} {d : Int} {info : OutInfo}
    (hr : resolveOutDev env outId = some d) (hd : d ≠ -1)
    (hq : env.queryOut d = some info) (hfail : env.sysStreamOk = false)
    (hsc : env.scPresent = true) :
    sysPhase env b outId = .ok (sysFallbackBundle b info) := by
  simp [sysPhase, hr, hd, hq, hfail, hsc]

theorem sysPhase_fail (b : StreamBundle) {env : CaptureEnv}
    {outId : Option Int} {d : Int}
    (hr : resolveOutDev env outId = some d) (hd : d ≠ -1)
    (hq : (env.queryOut d).isSome = true) (hfail : env.sysStreamOk = false)
    (hsc : env.scPresent = false) :
    sysPhase env b outId = .error "loopback open raised and soundcard missing" := by
  cases hqm : env.queryOut d with
  | none => rw [hqm] at hq; simp at hq
  | some info => simp [sysPhase, hr, hd, hqm, hfail, hsc]

theorem start_state_bundle (env : CaptureEnv) (audioDir : String)
    (st : RecState) (k : String) (micId outId : Option Int)
    (hsd : env.sdPresent = true) (hfree : lookupRec st k = none) :
    ∃ b, lookupRec (start_recording env audioDir st k micId outId).1 k = some b
      ∧ (b.sysBackend = none
         ∨ (b.sysBackend = some "sounddevice" ∧ b.sysWav = true)
         ∨ (b.sysBackend = some "soundcard" ∧ b.sysWav = true)) := by
  cases hb1 : micPhase env emptyBundle micId with
  | error e =>
    refine ⟨emptyBundle, ?_, Or.inl rfl⟩
    simp [start_recording, hsd, hfree, hb1, lookupRec_insert]
  | ok b1 =>
    have hfields := micPhase_ok_fields hb1
    cases hb2 : sysPhase env b1 outId with
    | error e =>
      refine ⟨b1, ?_, Or.inl (by rw [hfields.1]; rfl)⟩
      simp [start_recording, hsd, hfree, hb1, hb2, lookupRec_insert]
    | ok b2 =>
      refine ⟨b2, ?_, ?_⟩
      · simp [start_recording, hsd, hfree, hb1, hb2, lookupRec_insert]
      · rcases sysPhase_ok_cases hb2 with h | h | h
        · subst h; exact Or.inl (by rw [hfields.1]; rfl)
        · exact Or.inr (Or.inl h)
        · exact Or.inr (Or.inr h)

/-! ### Claim theorems for the recording session -/

/-- C1 counterexample: with the mic device resolved and its
`sd.InputStream` open failing, `start_recording` propagates the exception
instead of skipping the track and returning a result. -/
theorem start_recording_raises_on_mic_open_failure :
    start_recording micFailEnv "audio" [] "m1" (some 2) none
      = ([("m1", emptyBundle)], .error "mic InputStream open raised") := rfl

/-- C1 (amended): `start_recording` skips a track only when its device is
unresolved (no id supplied and no backend default, or index `-1`), and a
primary system-loopback failure is recovered via the fallback backend when
that module is present; under those conditions — backend module present, no
session active for the key, every resolved track's query and open succeeding
(for the system track: primary open succeeding or the fallback module being
present) — it returns a result with possibly-null paths and registers the key
(the session is Recording). A mic open failure, a device-query failure, a
missing audio backend, or a system-loopback failure with no fallback module
all propagate as errors instead. -/
theorem start_recording_ok_of_track_opens
    (env : CaptureEnv) (audioDir : String) (st : RecState) (k : String)
    (micId outId : Option Int)
    (hsd : env.sdPresent = true)
    (hfree : lookupRec st k = none)
    (hmic : ∀ d, resolveMicDev env micId = some d → d ≠ -1 →
      (env.queryMic d).isSome = true ∧ env.micStreamOk = true)
    (hsys : ∀ d, resolveOutDev env outId = some d → d ≠ -1 →
      (env.queryOut d).isSome = true ∧
        (env.sysStreamOk = true ∨ env.scPresent = true)) :
    ∃ st1 mp sp,
      start_recording env audioDir st k micId outId = (st1, .ok (.paths mp sp))
        ∧ (lookupRec st1 k).isSome = true := by
  obtain ⟨b1, hb1⟩ := micPhase_isOk emptyBundle hmic
  obtain ⟨b2, hb2⟩ := sysPhase_isOk b1 hsys
  refine ⟨insertRec st k b2,
    (if b2.micWav then some (micPathStr audioDir k) else none),
    (if b2.sysWav then some (sysPathStr audioDir k) else none), ?_, ?_⟩
  · simp [start_recording, hsd, hfree, hb1, hb2]
  · simp [lookupRec_insert]

/-- C1 witness: a fully healthy environment with default devices; all
hypotheses hold and the session starts. -/
theorem start_recording_ok_of_track_opens_witness :
    okEnv.sdPresent = true ∧ lookupRec [] "m1" = none ∧
    (∃ st1 mp sp,
      start_recording okEnv "audio" [] "m1" none none = (st1, .ok (.paths mp sp))
        ∧ (lookupRec st1 "m1").isSome = true) :=
  ⟨rfl, rfl,
    start_recording_ok_of_track_opens okEnv "audio" [] "m1" none none rfl rfl
      (fun d hd _ => by
        have h1 : d = 1 := by simpa [resolveMicDev, okEnv] using hd.symm
        subst h1; exact ⟨rfl, rfl⟩)
      (fun d hd _ => by
        have h3 : d = 3 := by simpa [resolveOutDev, okEnv] using hd.symm
        subst h3; exact ⟨rfl, Or.inl rfl⟩)⟩

/-- C6: a second `start_recording` for a key with an active session returns
the empty dict and leaves the session table (and every session) untouched. -/
theorem start_recording_idempotent_on_active_key
    (env : CaptureEnv) (audioDir : String) (st : RecState) (k : String)
    (micId outId : Option Int) (hsd : env.sdPresent = true)
    (hactive : (lookupRec st k).isSome = true) :
    start_recording env audioDir st k micId outId = (st, .ok .empty) :=
  start_on_active env audioDir st k micId outId hsd hactive

/-- C6 witness. -/
theorem start_recording_idempotent_on_active_key_witness :
    okEnv.sdPresent = true
      ∧ (lookupRec [("m1", emptyBundle)] "m1").isSome = true
      ∧ start_recording okEnv "audio" [("m1", emptyBundle)] "m1" none none
          = ([("m1", emptyBundle)], .ok .empty) :=
  ⟨rfl, rfl,
    start_recording_idempotent_on_active_key okEnv "audio"
      [("m1", emptyBundle)] "m1" none none rfl rfl⟩

/-- C7: `stop_recording` on a key with no active session returns the empty
dict, changes nothing and raises nothing. -/
theorem stop_recording_unknown_key_empty (audioDir : String) (st : RecState)
    (k : String) (h : lookupRec st k = none) :
    stop_recording audioDir st k = (st, .empty) := by
  simp [stop_recording, h]

/-- C7 witness. -/
theorem stop_recording_unknown_key_empty_witness :
    lookupRec [] "unknown" = none
      ∧ stop_recording "audio" [] "unknown" = ([], .empty) :=
  ⟨rfl, stop_recording_unknown_key_empty "audio" [] "unknown" rfl⟩

/-- C10: `start_recording` registers the key (with the fresh bundle) in
`_recordings` before opening any stream, so when the system-loopback open
raises with no fallback module available, the key stays registered with the
partially initialized bundle: the mic stream remains started, a second start
for the key returns the empty dict without touching the state, and only
`stop_recording` removes the entry. -/
theorem start_registers_key_before_streams
    (env : CaptureEnv) (audioDir : String) (st : RecState) (k : String)
    (micId outId : Option Int) (d1 d2 : Int)
    (hsd : env.sdPresent = true) (hfree : lookupRec st k = none)
    (hm1 : resolveMicDev env micId = some d1) (hm2 : d1 ≠ -1)
    (hm3 : (env.queryMic d1).isSome = true) (hm4 : env.micStreamOk = true)
    (ho1 : resolveOutDev env outId = some d2) (ho2 : d2 ≠ -1)
    (ho3 : (env.queryOut d2).isSome = true)
    (ho4 : env.sysStreamOk = false) (ho5 : env.scPresent = false) :
    ∃ st1 e b, start_recording env audioDir st k micId outId = (st1, .error e)
      ∧ lookupRec st1 k = some b
      ∧ b.micStream = true
      ∧ start_recording env audioDir st1 k micId outId = (st1, .ok .empty)
      ∧ lookupRec (stop_recording audioDir st1 k).1 k = none := by
  obtain ⟨b1, hb1⟩ := micPhase_isOk emptyBundle
    (fun d hd _ => by
      rw [hm1] at hd
      injection hd with h2
      subst h2
      exact ⟨hm3, hm4⟩)
  have herr := sysPhase_fail b1 ho1 ho2 ho3 ho4 ho5
  refine ⟨insertRec st k b1, "loopback open raised and soundcard missing", b1,
    ?_, lookupRec_insert st k b1,
    micPhase_micStream hb1 hm1 hm2, ?_, ?_⟩
  · simp [start_recording, hsd, hfree, hb1, herr]
  · exact start_on_active env audioDir _ k micId outId hsd
      (by simp [lookupRec_insert])
  · simp [stop_recording, lookupRec_insert, lookupRec_erase]

/-- C10 witness: default devices, healthy mic, failing primary loopback and
no fallback module. -/
theorem start_registers_key_before_streams_witness :
    sysFailEnv.sdPresent = true ∧ lookupRec [] "m1" = none
      ∧ resolveMicDev sysFailEnv none = some 1 ∧ (1 : Int) ≠ -1
      ∧ resolveOutDev sysFailEnv none = some 3 ∧ (3 : Int) ≠ -1
      ∧ sysFailEnv.sysStreamOk = false ∧ sysFailEnv.scPresent = false
      ∧ (∃ st1 e b,
          start_recording sysFailEnv "audio" [] "m1" none none = (st1, .error e)
            ∧ lookupRec st1 "m1" = some b
            ∧ b.micStream = true
            ∧ start_recording sysFailEnv "audio" st1 "m1" none none
                = (st1, .ok .empty)
            ∧ lookupRec (stop_recording "audio" st1 "m1").1 "m1" = none) :=
  ⟨rfl, rfl, rfl, by decide, rfl, by decide, rfl, rfl,
    start_registers_key_before_streams sysFailEnv "audio" [] "m1" none none 1 3
      rfl rfl rfl (by decide) rfl rfl rfl (by decide) rfl rfl rfl⟩

/-- C5 counterexample: after a session whose primary loopback open failed
and whose fallback succeeded, `stop_recording` reports
`sys_backend = "soundcard"` with a non-null system path — not one of the
strings `"primary"` / `"fallback"` the claim names (nor null). -/
theorem stop_sys_backend_not_primary_fallback_strings :
    ∃ i, (stop_recording "audio"
        (start_recording fallbackEnv "audio" [] "m1" (some (-1)) (some 3)).1
        "m1").2 = .info i
      ∧ i.sysPath ≠ none
      ∧ i.sysBackend ≠ some "primary"
      ∧ i.sysBackend ≠ some "fallback"
      ∧ i.sysBackend ≠ none :=
  ⟨⟨none, some (sysPathStr "audio" "m1"), 0, 0, 48000, 1, some "soundcard"⟩,
    rfl, by decide, by decide, by decide, by decide⟩

/-- C5 (amended): for every completed session the `sys_backend` field of
`stop_recording`'s result is null or exactly one of the strings
`"sounddevice"` (the primary backend) or `"soundcard"` (the fallback); in
particular, when the primary backend fails to open loopback and the fallback
succeeds, the result carries `sys_backend = "soundcard"` with a non-null
`sys_path`. -/
theorem stop_sys_backend_values
    (env : CaptureEnv) (audioDir : String) (st : RecState) (k : String)
    (micId outId : Option Int)
    (hsd : env.sdPresent = true) (hfree : lookupRec st k = none) :
    (∀ st2 i,
      stop_recording audioDir
          (start_recording env audioDir st k micId outId).1 k = (st2, .info i) →
        i.sysBackend = none ∨ i.sysBackend = some "sounddevice"
          ∨ i.sysBackend = some "soundcard")
    ∧ (∀ b1 d info, micPhase env emptyBundle micId = .ok b1 →
        resolveOutDev env outId = some d → d ≠ -1 →
        env.queryOut d = some info → env.sysStreamOk = false →
        env.scPresent = true →
        ∀ st2 i,
          stop_recording audioDir
              (start_recording env audioDir st k micId outId).1 k
            = (st2, .info i) →
          i.sysBackend = some "soundcard"
            ∧ i.sysPath = some (sysPathStr audioDir k)) := by
  constructor
  · intro st2 i hstop
    obtain ⟨b, hlook, hcases⟩ :=
      start_state_bundle env audioDir st k micId outId hsd hfree
    simp only [stop_recording, hlook] at hstop
    injection hstop with h1 h2
    injection h2 with h3
    subst h3
    rcases hcases with h | h | h <;> simp [h]
  · intro b1 d info hb1 ho1 ho2 hq ho4 hsc st2 i hstop
    have hb2 := sysPhase_fallback b1 ho1 ho2 hq ho4 hsc
    have hstart : (start_recording env audioDir st k micId outId).1
        = insertRec st k (sysFallbackBundle b1 info) := by
      simp [start_recording, hsd, hfree, hb1, hb2]
    rw [hstart] at hstop
    simp only [stop_recording, lookupRec_insert] at hstop
    injection hstop with h1 h2
    injection h2 with h3
    subst h3
    exact ⟨rfl, rfl⟩

/-- C5 witness: the fallback scenario instantiated; the stop result carries
`sys_backend = "soundcard"` and the system path. -/
theorem stop_sys_backend_values_witness :
    fallbackEnv.sdPresent = true ∧ lookupRec [] "m1" = none
      ∧ micPhase fallbackEnv emptyBundle (some (-1)) = .ok emptyBundle
      ∧ resolveOutDev fallbackEnv (some 3) = some 3
      ∧ fallbackEnv.queryOut 3 = some ⟨"Spk", 48000, 2⟩
      ∧ fallbackEnv.sysStreamOk = false ∧ fallbackEnv.scPresent = true
      ∧ ((⟨none, some (sysPathStr "audio" "m1"), 0, 0, 48000, 1,
            some "soundcard"⟩ : StopInfo).sysBackend = some "soundcard"
         ∧ (⟨none, some (sysPathStr "audio" "m1"), 0, 0, 48000, 1,
              some "soundcard"⟩ : StopInfo).sysPath
             = some (sysPathStr "audio" "m1")) :=
  ⟨rfl, rfl, by rfl, rfl, rfl, rfl, rfl,
    (stop_sys_backend_values fallbackEnv "audio" [] "m1" (some (-1)) (some 3)
        rfl rfl).2
      emptyBundle 3 ⟨"Spk", 48000, 2⟩ (by rfl) rfl (by decide) rfl rfl rfl
      [] ⟨none, some (sysPathStr "audio" "m1"), 0, 0, 48000, 1,
          some "soundcard"⟩ (by rfl)⟩

/-! ### Claim theorems for device enumeration and the block pipeline -/

/-- C8: `list_devices` never throws — for every state of the audio subsystem
it returns two (possibly empty) device lists; when the module is absent or
enumeration fails both lists are empty, and every returned descriptor (in
particular every one flagged default) corresponds to an enumerated device at
its index with the matching capability, so a device absent from the
enumeration is never marked default. -/
theorem list_devices_total_and_defaults (env : DevicesEnv) :
    (env.sdPresent = false → list_devices env = ([], []))
    ∧ (env.query = none → list_devices env = ([], []))
    ∧ (∀ d, d ∈ (list_devices env).1 → ∃ (devs : List SdDevice) (i : Nat) (dev : SdDevice),
        env.query = some devs ∧ devs[i]? = some dev ∧ d.id = toString i
          ∧ d.name = dev.name ∧ 0 < dev.max_input_channels
          ∧ (d.is_default = true →
              env.defaultDevice.map Prod.fst = some (i : Int)))
    ∧ (∀ d, d ∈ (list_devices env).2 → ∃ (devs : List SdDevice) (i : Nat) (dev : SdDevice),
        env.query = some devs ∧ devs[i]? = some dev ∧ d.id = toString i
          ∧ d.name = dev.name ∧ 0 < dev.max_output_channels
          ∧ (d.is_default = true →
              env.defaultDevice.map Prod.snd = some (i : Int))) := by
  refine ⟨?_, ?_, ?_, ?_⟩
  · intro h; simp [list_devices, h]
  · intro h
    cases hsd : env.sdPresent with
    | false => simp [list_devices, hsd]
    | true => simp [list_devices, hsd, h]
  · intro d hd
    cases hsd : env.sdPresent with
    | false => simp [list_devices, hsd] at hd
    | true =>
      cases hq : env.query with
      | none => simp [list_devices, hsd, hq] at hd
      | some devs =>
        simp only [list_devices, hsd, hq, Bool.true_eq_false, if_false,
          List.mem_map, List.mem_filter] at hd
        obtain ⟨⟨i, x⟩, ⟨hpe, hpi⟩, hdp⟩ := hd
        subst hdp
        refine ⟨devs, i, x, rfl, List.mk_mem_enum_iff_getElem?.mp hpe,
          rfl, rfl, by simpa using hpi, ?_⟩
        intro hdef
        exact (of_decide_eq_true hdef).symm
  · intro d hd
    cases hsd : env.sdPresent with
    | false => simp [list_devices, hsd] at hd
    | true =>
      cases hq : env.query with
      | none => simp [list_devices, hsd, hq] at hd
      | some devs =>
        simp only [list_devices, hsd, hq, Bool.true_eq_false, if_false,
          List.mem_map, List.mem_filter] at hd
        obtain ⟨⟨i, x⟩, ⟨hpe, hpi⟩, hdp⟩ := hd
        subst hdp
        refine ⟨devs, i, x, rfl, List.mk_mem_enum_iff_getElem?.mp hpe,
          rfl, rfl, by simpa using hpi, ?_⟩
        intro hdef
        exact (of_decide_eq_true hdef).symm

/-- C8 witness: the absent-module, failed-enumeration and healthy cases
instantiated. -/
theorem list_devices_total_and_defaults_witness :
    list_devices ⟨false, none, none⟩ = ([], [])
    ∧ list_devices ⟨true, none, none⟩ = ([], [])
    ∧ (∃ (devs : List SdDevice) (i : Nat) (dev : SdDevice),
        (⟨true, some [⟨"Mic", 1, 0⟩], some (0, 0)⟩ : DevicesEnv).query
            = some devs
          ∧ devs[i]? = some dev
          ∧ (⟨"0", "Mic", "input", true⟩ : Device).id = toString i
          ∧ (⟨"0", "Mic", "input", true⟩ : Device).name = dev.name
          ∧ 0 < dev.max_input_channels
          ∧ ((⟨"0", "Mic", "input", true⟩ : Device).is_default = true →
              (⟨true, some [⟨"Mic", 1, 0⟩], some (0, 0)⟩ :
                DevicesEnv).defaultDevice.map Prod.fst = some (i : Int))) :=
  ⟨(list_devices_total_and_defaults ⟨false, none, none⟩).1 rfl,
   (list_devices_total_and_defaults ⟨true, none, none⟩).2.1 rfl,
   (list_devices_total_and_defaults
      ⟨true, some [⟨"Mic", 1, 0⟩], some (0, 0)⟩).2.2.1
     ⟨"0", "Mic", "input", true⟩ (by decide)⟩

/-- C9: when the device rate is set, nonzero and differs from the target and
the resampler fails on the delivered block, both `_mic_cb` and `_sys_cb`
write the block unresampled to the open track file and advance the frame
counter by its length — the block is passed through, not dropped. -/
theorem resample_failure_passthrough
    (resample : List Rat → Int → Int → Option (List Rat))
    (b : StreamBundle) (indata : List (List Rat)) (r : Int) :
    (b.micRate = some r → r ≠ 0 → r ≠ b.targetRate →
      resample (int16ToF32 (toMonoInt16 indata)) r b.targetRate = none →
      b.micWav = true →
      micCb resample b indata
        = ({ b with micFrames :=
               b.micFrames + (int16ToF32 (toMonoInt16 indata)).length },
           encodeInt16 (int16ToF32 (toMonoInt16 indata))))
    ∧ (b.sysRate = some r → r ≠ 0 → r ≠ b.targetRate →
      resample (int16ToF32 (toMonoInt16 indata)) r b.targetRate = none →
      b.sysWav = true →
      sysCb resample b indata
        = ({ b with sysFrames :=
               b.sysFrames + (int16ToF32 (toMonoInt16 indata)).length },
           encodeInt16 (int16ToF32 (toMonoInt16 indata)))) := by
  constructor
  · intro hr h0 hne hfail hw
    simp [micCb, hr, h0, hne, hfail, hw]
  · intro hr h0 hne hfail hw
    simp [sysCb, hr, h0, hne, hfail, hw]

/-- C9 witness: a two-frame block through both callbacks with an
always-failing resampler. -/
theorem resample_failure_passthrough_witness :
    cbBundle.micRate = some 44100 ∧ cbBundle.sysRate = some 44100
      ∧ (44100 : Int) ≠ 0 ∧ (44100 : Int) ≠ cbBundle.targetRate
      ∧ cbFailResample
          (int16ToF32 (toMonoInt16 [[(1 : Rat)/2], [(1 : Rat)/4]]))
          44100 cbBundle.targetRate = none
      ∧ cbBundle.micWav = true ∧ cbBundle.sysWav = true
      ∧ micCb cbFailResample cbBundle [[(1 : Rat)/2], [(1 : Rat)/4]]
          = ({ cbBundle with micFrames := cbBundle.micFrames
                 + (int16ToF32 (toMonoInt16
                     [[(1 : Rat)/2], [(1 : Rat)/4]])).length },
             encodeInt16 (int16ToF32 (toMonoInt16
               [[(1 : Rat)/2], [(1 : Rat)/4]])))
      ∧ sysCb cbFailResample cbBundle [[(1 : Rat)/2], [(1 : Rat)/4]]
          = ({ cbBundle with sysFrames := cbBundle.sysFrames
                 + (int16ToF32 (toMonoInt16
                     [[(1 : Rat)/2], [(1 : Rat)/4]])).length },
             encodeInt16 (int16ToF32 (toMonoInt16
               [[(1 : Rat)/2], [(1 : Rat)/4]]))) :=
  ⟨rfl, rfl, by decide, by decide, rfl, rfl, rfl,
   (resample_failure_passthrough cbFailResample cbBundle
       [[(1 : Rat)/2], [(1 : Rat)/4]] 44100).1
     rfl (by decide) (by decide) rfl rfl,
   (resample_failure_passthrough cbFailResample cbBundle
       [[(1 : Rat)/2], [(1 : Rat)/4]] 44100).2
     rfl (by decide) (by decide) rfl rfl⟩

end MeetingNotes
